import Mathlib

/-!
Shallow embedding of the HRMS Leave Management Service core:
the leave data model, the RBAC decision functions
(`src/app/core/permissions.py`), the request schemas
(`src/app/schemas/leave.py`), and the leave lifecycle route handlers
(`src/app/api/routes/leaves.py`).

Datetimes are embedded as integers counting microseconds (Python
datetimes have microsecond resolution); `timedelta.days` is floor
division by the number of microseconds per day, and `.date()` is the
same floor division.  Database lookups (the leave row and the
employee-directory resolution of the caller) are passed in as
arguments: an operation that raises an HTTPException is embedded as a
function returning `Except ApiError Leave`, where an `error` result
means the row was not mutated (all the handlers raise before their
first write).
-/

namespace LeaveService

/-- Modelled from the spec: the `LeaveStatus` enum of the missing
`app/models/leave.py` module ("Status: one of pending, approved,
rejected, cancelled"); the string values appear in the error details
built by the route handlers. -/
inductive LeaveStatus where
  | pending
  | approved
  | rejected
  | cancelled
deriving DecidableEq, Repr

/-- The `.value` of a `LeaveStatus` member, as interpolated into error
messages such as `f"Cannot cancel a leave with status {leave.status.value}"`. -/
def LeaveStatus.value : LeaveStatus → String
  | .pending => "pending"
  | .approved => "approved"
  | .rejected => "rejected"
  | .cancelled => "cancelled"

/-- Modelled from the spec: the `LeaveType` enum of the missing
`app/models/leave.py` module ("leave_type enumerated: sick, casual,
annual, unpaid, maternity, paternity, other"). -/
inductive LeaveType where
  | sick
  | casual
  | annual
  | unpaid
  | maternity
  | paternity
  | other
deriving DecidableEq, Repr

/-- Modelled from the spec: the `Leave` row of the missing
`app/models/leave.py` module; the fields are exactly those read and
written by `src/app/api/routes/leaves.py` and mirrored by
`LeavePublic` in `src/app/schemas/leave.py`.  Datetimes are integer
microsecond timestamps. -/
structure Leave where
  id : Int
  employee_id : Int
  leave_type : LeaveType
  start_date : Int
  end_date : Int
  reason : Option String
  status : LeaveStatus
  approved_by : Option Int
  rejection_reason : Option String
  created_at : Int
  updated_at : Int
deriving DecidableEq, Repr

/-- Decoded token data (`TokenData` in `src/app/core/security.py`),
restricted to the fields the permission functions read. -/
structure TokenData where
  sub : String
  email : Option String
  roles : List String
  groups : List String
deriving DecidableEq, Repr

/-- Python truthiness of an `str | None` value: `None` and the empty
string are falsy. -/
def truthyStr : Option String → Bool
  | none => false
  | some s => s ≠ ""

/-- Python truthiness of an `int | None` value: `None` and `0` are
falsy. -/
def truthyInt : Option Int → Bool
  | none => false
  | some n => n ≠ 0

/-- Number of microseconds in a day, the unit conversion behind
`timedelta.days` and `datetime.date()` on microsecond timestamps. -/
def usecPerDay : Int := 86400000000

/-- The calendar day of a microsecond timestamp (`datetime.date()`),
as used by the past-date check of `create_leave_self_service`. -/
def dateOf (t : Int) : Int := Int.fdiv t usecPerDay

/-- `is_employee` from `src/app/core/permissions.py`: member of the
`Employees` group or holder of the `employee` role. -/
def is_employee (user : TokenData) : Bool :=
  user.groups.contains "Employees" || user.roles.contains "employee"

/-- `is_manager` from `src/app/core/permissions.py`: intersection with
the manager groups or the manager roles is non-empty. -/
def is_manager (user : TokenData) : Bool :=
  user.groups.any (fun g =>
    g = "Team_Managers" || g = "HR_Managers" || g = "HR_Administrators") ||
  user.roles.any (fun r => r = "manager" || r = "HR_Manager" || r = "HR_Admin")

/-- `is_hr` from `src/app/core/permissions.py`: intersection with the
HR groups or the HR roles is non-empty. -/
def is_hr (user : TokenData) : Bool :=
  user.groups.any (fun g => g = "HR_Managers" || g = "HR_Administrators") ||
  user.roles.any (fun r => r = "HR_Manager" || r = "HR_Admin")

/-- `is_hr_admin` from `src/app/core/permissions.py`. -/
def is_hr_admin (user : TokenData) : Bool :=
  user.groups.contains "HR_Administrators" || user.roles.contains "HR_Admin"

/-- `is_team_manager` from `src/app/core/permissions.py`. -/
def is_team_manager (user : TokenData) : Bool :=
  user.groups.contains "Team_Managers" || user.roles.contains "manager"

/-- `can_access_leave` from `src/app/core/permissions.py`: HR sees
any leave; an owner sees their own; a team manager sees any (the
team-membership check is a TODO in the source). -/
def can_access_leave (user : TokenData) (leave_employee_id applicant_employee_id : Int) :
    Bool :=
  if is_hr user then true
  else if leave_employee_id = applicant_employee_id then true
  else if is_team_manager user then true
  else false

/-- `can_approve_specific_leave` from `src/app/core/permissions.py`:
self-approval is refused first, then HR may approve any leave, then a
team manager may approve any leave (team-membership check is a TODO in
the source). -/
def can_approve_specific_leave (user : TokenData)
    (leave_employee_id approver_employee_id : Int) : Bool :=
  if leave_employee_id = approver_employee_id then false
  else if is_hr user then true
  else if is_team_manager user then true
  else false

/-- The error responses the route handlers raise, by HTTP status code:
404 `notFound`, 400 `badRequest`, 403 `forbidden`, 422
`unprocessable` for Pydantic request-schema validation failures, and
`unhandled` for an uncaught Python exception escaping the handler
(surfaced by the framework as a 500 server error with no detail). -/
inductive ApiError where
  | notFound (detail : String)
  | badRequest (detail : String)
  | forbidden (detail : String)
  | unprocessable (detail : String)
  | unhandled (exception : String)
deriving DecidableEq, Repr

/-- `LeaveCreateSelf` from `src/app/schemas/leave.py`: the body of the
self-service create endpoint (employee id comes from the token). -/
structure LeaveCreateSelf where
  leave_type : LeaveType
  start_date : Int
  end_date : Int
  reason : Option String
deriving DecidableEq, Repr

/-- `LeaveStatusUpdate` from `src/app/schemas/leave.py`: the body of
the legacy bulk status-update endpoint. -/
structure LeaveStatusUpdate where
  status : LeaveStatus
  rejection_reason : Option String
  approved_by : Option Int
deriving DecidableEq, Repr

/-- Pydantic validation of `LeaveRejectRequest`
(`src/app/schemas/leave.py`): `rejection_reason` is a required string
with `min_length=1, max_length=500`; a missing or out-of-bounds value
is rejected with a 422 before the route body runs. -/
def parseLeaveRejectRequest (raw : Option String) : Except ApiError String :=
  match raw with
  | none => .error (.unprocessable "rejection_reason: field required")
  | some s =>
    if 1 ≤ s.length ∧ s.length ≤ 500 then .ok s
    else .error (.unprocessable "rejection_reason: length out of bounds")

/-- `create_leave_self_service` (`POST /leaves/me`,
`src/app/api/routes/leaves.py`): resolve the caller to an employee id
(404 when the directory has no record), require `start_date <
end_date`, require `start_date.date() >= today`, then insert a new
pending row with server-assigned timestamps. -/
def create_leave_self_service (employee : Option Int) (leave : LeaveCreateSelf)
    (now newId : Int) : Except ApiError Leave :=
  match employee with
  | none => .error (.notFound "Employee record not found. Please contact HR.")
  | some employee_id =>
    if leave.start_date ≥ leave.end_date then
      .error (.badRequest "start_date must be before end_date")
    else if dateOf leave.start_date < dateOf now then
      .error (.badRequest "Cannot apply for leave with past dates")
    else
      .ok { id := newId
            employee_id := employee_id
            leave_type := leave.leave_type
            start_date := leave.start_date
            end_date := leave.end_date
            reason := leave.reason
            status := .pending
            approved_by := none
            rejection_reason := none
            created_at := now
            updated_at := now }

/-- `approve_leave` (`POST /leaves/{id}/approve`,
`src/app/api/routes/leaves.py`), given the resolved approver id and
the fetched row: only a pending leave may be approved (400), the
approver must pass `can_approve_specific_leave` (403), and on success
the row becomes approved with `approved_by` and a refreshed
`updated_at`. -/
def approve_leave (current_user : TokenData) (approver_id : Int) (leave : Leave)
    (now : Int) : Except ApiError Leave :=
  if leave.status ≠ .pending then
    .error (.badRequest
      ("Can only approve PENDING leaves. Current status: " ++ leave.status.value))
  else if ¬ can_approve_specific_leave current_user leave.employee_id approver_id then
    .error (.forbidden "You are not authorized to approve this leave request")
  else
    .ok { leave with
          status := .approved
          approved_by := some approver_id
          updated_at := now }

/-- Body of `reject_leave` after request validation: only a pending
leave may be rejected (400), the rejector must pass
`can_approve_specific_leave` (403), and on success the row becomes
rejected with `approved_by`, the reason and a refreshed `updated_at`. -/
def reject_leave_checked (current_user : TokenData) (approver_id : Int)
    (rejection_reason : String) (leave : Leave) (now : Int) : Except ApiError Leave :=
  if leave.status ≠ .pending then
    .error (.badRequest
      ("Can only reject PENDING leaves. Current status: " ++ leave.status.value))
  else if ¬ can_approve_specific_leave current_user leave.employee_id approver_id then
    .error (.forbidden "You are not authorized to reject this leave request")
  else
    .ok { leave with
          status := .rejected
          approved_by := some approver_id
          rejection_reason := some rejection_reason
          updated_at := now }

/-- `reject_leave` (`POST /leaves/{id}/reject`,
`src/app/api/routes/leaves.py`): Pydantic validation of the
`LeaveRejectRequest` body followed by the route body. -/
def reject_leave (current_user : TokenData) (approver_id : Int)
    (raw : Option String) (leave : Leave) (now : Int) : Except ApiError Leave :=
  (parseLeaveRejectRequest raw).bind
    (fun reason => reject_leave_checked current_user approver_id reason leave now)

/-- `cancel_my_leave` (`DELETE /leaves/me/{id}`,
`src/app/api/routes/leaves.py`), given the resolved caller id and the
fetched row: ownership is checked first (403), then cancelled and
rejected leaves refuse cancellation (400); on success the status
becomes cancelled (the other decision fields are left as they are). -/
def cancel_my_leave (employee_id : Int) (leave : Leave) (now : Int) :
    Except ApiError Leave :=
  if leave.employee_id ≠ employee_id then
    .error (.forbidden "You can only cancel your own leave requests")
  else if leave.status = .cancelled ∨ leave.status = .rejected then
    .error (.badRequest ("Cannot cancel a leave with status " ++ leave.status.value))
  else
    .ok { leave with status := .cancelled, updated_at := now }

/-- `cancel_leave` (`DELETE /leaves/{id}`, HR-only legacy route,
`src/app/api/routes/leaves.py`): cancelled and rejected leaves refuse
cancellation (400); on success the status becomes cancelled. -/
def cancel_leave (leave : Leave) (now : Int) : Except ApiError Leave :=
  if leave.status = .cancelled ∨ leave.status = .rejected then
    .error (.badRequest ("Cannot cancel a leave with status " ++ leave.status.value))
  else
    .ok { leave with status := .cancelled, updated_at := now }

/-- `update_leave_status` (`PUT /leaves/{id}`, HR-only legacy route,
`src/app/api/routes/leaves.py`): the transition is refused (400) only
when the row is not pending AND the requested status is not cancelled;
approval requires a truthy `approved_by`, rejection a truthy
`rejection_reason`; then status, `approved_by` and `rejection_reason`
are overwritten from the body unconditionally. -/
def update_leave_status (status_update : LeaveStatusUpdate) (leave : Leave)
    (now : Int) : Except ApiError Leave :=
  if leave.status ≠ .pending ∧ status_update.status ≠ .cancelled then
    .error (.badRequest
      ("Cannot change status from " ++ leave.status.value ++ " to "
        ++ status_update.status.value))
  else if status_update.status = .approved ∧ ¬ truthyInt status_update.approved_by then
    .error (.badRequest "approved_by is required when approving a leave")
  else if status_update.status = .rejected ∧
      ¬ truthyStr status_update.rejection_reason then
    .error (.badRequest "rejection_reason is required when rejecting a leave")
  else
    .ok { leave with
          status := status_update.status
          approved_by := status_update.approved_by
          rejection_reason := status_update.rejection_reason
          updated_at := now }

/-- Parsing a status query-string value with the `LeaveStatus(...)`
enum constructor, as the listing routes do inside `try/except
ValueError`. -/
def parseLeaveStatus (s : String) : Option LeaveStatus :=
  if s = "pending" then some .pending
  else if s = "approved" then some .approved
  else if s = "rejected" then some .rejected
  else if s = "cancelled" then some .cancelled
  else none

/-- The member values of `LeaveStatus`, in declaration order: the
status strings the listing routes accept as a filter value. -/
def validStatusValues : List String := ["pending", "approved", "rejected", "cancelled"]

/-- The status-filter step shared by `get_my_leaves`,
`list_all_leaves`, `list_leaves` and `get_employee_leaves`
(`src/app/api/routes/leaves.py`): `if status:` skips a `None` or
empty-string parameter, and a recognized value narrows the query to
rows of that status.  For an unrecognized value the handler tries to
raise a 400 naming the valid values, but in all four handlers the
`status` query parameter shadows the `fastapi.status` module, so
evaluating `status.HTTP_400_BAD_REQUEST` on the string (the first
keyword argument, evaluated before the detail) raises an
AttributeError and the request fails as an unhandled server error
with no detail. -/
def applyStatusFilter (statusParam : Option String) (leaves : List Leave) :
    Except ApiError (List Leave) :=
  match statusParam with
  | none => .ok leaves
  | some s =>
    if s = "" then .ok leaves
    else
      match parseLeaveStatus s with
      | some st => .ok (leaves.filter (fun l => l.status = st))
      | none =>
        .error (.unhandled
          "AttributeError: str object has no attribute HTTP_400_BAD_REQUEST")

/-- `LeavePublicEnriched` (`src/app/schemas/leave.py`): a leave row
plus resolved display names and the computed `days_count`. -/
structure LeavePublicEnriched where
  leave : Leave
  employee_name : Option String
  approver_name : Option String
  days_count : Option Int
deriving DecidableEq, Repr

/-- The enrichment step the read routes apply to each returned row
(`get_leave`, `get_my_leaves`, `get_pending_leaves`,
`list_all_leaves`, `get_employee_leaves`): attach the directory names
and set `days_count = (end_date - start_date).days + 1`. -/
def enrichLeave (leave : Leave) (employee_name approver_name : Option String) :
    LeavePublicEnriched :=
  { leave := leave
    employee_name := employee_name
    approver_name := approver_name
    days_count := some (Int.fdiv (leave.end_date - leave.start_date) usecPerDay + 1) }

/-- `LeaveSummary` (`src/app/schemas/leave.py`). -/
structure LeaveSummary where
  total_leaves : Nat
  pending_leaves : Nat
  approved_leaves : Nat
  rejected_leaves : Nat
  cancelled_leaves : Nat
deriving DecidableEq, Repr

/-- The `count(...) where status = st` aggregate used by the dashboard
route, over the embedded table. -/
def countByStatus (leaves : List Leave) (st : LeaveStatus) : Nat :=
  (leaves.filter (fun l => l.status = st)).length

/-- `get_leave_dashboard_summary` (`GET /leaves/dashboard/summary`,
`src/app/api/routes/leaves.py`): the total row count and one count per
status. -/
def get_leave_dashboard_summary (leaves : List Leave) : LeaveSummary :=
  { total_leaves := leaves.length
    pending_leaves := countByStatus leaves .pending
    approved_leaves := countByStatus leaves .approved
    rejected_leaves := countByStatus leaves .rejected
    cancelled_leaves := countByStatus leaves .cancelled }

/-- The record-shape invariant claimed by the spec, relaxed on
cancelled rows: a pending row has neither decision field, an approved
row has `approved_by` and no `rejection_reason`, a rejected row has
both, and a cancelled row has no `rejection_reason` (it keeps
`approved_by` when it was cancelled after approval). -/
def leaveInv (l : Leave) : Bool :=
  (l.status = .pending → l.approved_by = none ∧ l.rejection_reason = none) ∧
  (l.status = .approved → l.approved_by ≠ none ∧ l.rejection_reason = none) ∧
  (l.status = .rejected → l.approved_by ≠ none ∧ l.rejection_reason ≠ none) ∧
  (l.status = .cancelled → l.rejection_reason = none)

/-- An operation result preserves the invariant when a successful
result satisfies it (an error result left the row untouched). -/
def preservesInv (r : Except ApiError Leave) : Bool :=
  match r with
  | .ok l => leaveInv l
  | .error _ => true

/-- A sample HR principal (member of `HR_Administrators`). -/
def hrUser : TokenData :=
  { sub := "u-hr"
    email := some "hr@example.com"
    roles := ["HR_Admin", "employee"]
    groups := ["HR_Administrators", "Employees"] }

/-- A sample team-manager principal (member of `Team_Managers`). -/
def mgrUser : TokenData :=
  { sub := "u-mgr"
    email := some "mgr@example.com"
    roles := ["manager", "employee"]
    groups := ["Team_Managers", "Employees"] }

/-- A sample pending leave owned by employee 5 (three calendar days). -/
def basePending : Leave :=
  { id := 1
    employee_id := 5
    leave_type := .annual
    start_date := 0
    end_date := 2 * usecPerDay
    reason := some "family event"
    status := .pending
    approved_by := none
    rejection_reason := none
    created_at := 0
    updated_at := 0 }

/-- The sample leave after approval by employee 2 at time 10. -/
def baseApproved : Leave :=
  { basePending with status := .approved, approved_by := some 2, updated_at := 10 }

/-- A sample rejected leave (terminal state). -/
def baseRejected : Leave :=
  { basePending with
      status := .rejected
      approved_by := some 2
      rejection_reason := some "overlapping schedule"
      updated_at := 10 }

/-- A sample cancelled leave (terminal state). -/
def baseCancelled : Leave :=
  { basePending with status := .cancelled, updated_at := 10 }

/-- A successful `Except` result reports `isOk`. -/
theorem isOk_ok (l : Leave) : (Except.ok l : Except ApiError Leave).isOk = true := rfl

/-- A failed `Except` result does not report `isOk`. -/
theorem isOk_error (e : ApiError) :
    (Except.error e : Except ApiError Leave).isOk = false := rfl

/-- C5: approval succeeds exactly when the leave is pending and
`can_approve_specific_leave` allows the resolved approver; on success
the row becomes approved with `approved_by` set to the approver and a
refreshed `updated_at`; approving a non-pending leave fails with the
invalid-state (Conflict) error, mutating nothing. -/
theorem approve_pending_only (u : TokenData) (aid : Int) (l : Leave) (now : Int) :
    ((approve_leave u aid l now).isOk = true ↔
      l.status = .pending ∧ can_approve_specific_leave u l.employee_id aid = true) ∧
    (l.status = .pending → can_approve_specific_leave u l.employee_id aid = true →
      approve_leave u aid l now =
        .ok { l with status := .approved, approved_by := some aid, updated_at := now }) ∧
    (l.status ≠ .pending →
      approve_leave u aid l now =
        .error (.badRequest
          ("Can only approve PENDING leaves. Current status: " ++ l.status.value))) := by
  unfold approve_leave
  refine ⟨?_, ?_, ?_⟩
  · split_ifs with h1 h2
    · simp only [isOk_error]
      constructor
      · intro h
        exact absurd h (by decide)
      · rintro ⟨hp, _⟩
        exact absurd hp h1
    · simp only [isOk_ok]
      have hp : l.status = .pending := not_not.mp h1
      simp [hp, h2]
    · simp only [isOk_error]
      constructor
      · intro h
        exact absurd h (by decide)
      · rintro ⟨_, hcan⟩
        exact absurd hcan h2
  · intro hp hcan
    simp [hp, hcan]
  · intro hnp
    simp [hnp]

/-- Witness for `approve_pending_only` at a concrete manager, approver
and pending leave. -/
theorem approve_pending_only_witness :
    ((approve_leave mgrUser 2 basePending 10).isOk = true ↔
      basePending.status = .pending ∧
      can_approve_specific_leave mgrUser basePending.employee_id 2 = true) ∧
    (basePending.status = .pending →
      can_approve_specific_leave mgrUser basePending.employee_id 2 = true →
      approve_leave mgrUser 2 basePending 10 =
        .ok { basePending with
              status := .approved, approved_by := some 2, updated_at := 10 }) ∧
    (basePending.status ≠ .pending →
      approve_leave mgrUser 2 basePending 10 =
        .error (.badRequest
          ("Can only approve PENDING leaves. Current status: "
            ++ basePending.status.value))) :=
  approve_pending_only mgrUser 2 basePending 10

/-- C6: self-service cancellation succeeds exactly when the caller
owns the row and its status is pending or approved, and then only sets
the status to cancelled; a non-owner is refused with Forbidden, and an
owner cancelling a rejected or cancelled leave gets the invalid-state
(Conflict) error. -/
theorem cancel_self_iff_owner_active (eid : Int) (l : Leave) (now : Int) :
    ((cancel_my_leave eid l now).isOk = true ↔
      l.employee_id = eid ∧ (l.status = .pending ∨ l.status = .approved)) ∧
    (l.employee_id = eid → (l.status = .pending ∨ l.status = .approved) →
      cancel_my_leave eid l now = .ok { l with status := .cancelled, updated_at := now }) ∧
    (l.employee_id ≠ eid →
      cancel_my_leave eid l now =
        .error (.forbidden "You can only cancel your own leave requests")) ∧
    (l.employee_id = eid → (l.status = .rejected ∨ l.status = .cancelled) →
      cancel_my_leave eid l now =
        .error (.badRequest ("Cannot cancel a leave with status " ++ l.status.value))) := by
  unfold cancel_my_leave
  refine ⟨?_, ?_, ?_, ?_⟩
  · split_ifs with h1 h2
    · simp only [isOk_error]
      constructor
      · intro h
        exact absurd h (by decide)
      · rintro ⟨hown, _⟩
        exact absurd hown h1
    · simp only [isOk_error]
      constructor
      · intro h
        exact absurd h (by decide)
      · rintro ⟨_, hact⟩
        rcases hact with h | h <;> rcases h2 with h2 | h2 <;> simp [h] at h2
    · simp only [isOk_ok]
      have hown : l.employee_id = eid := not_not.mp h1
      push_neg at h2
      constructor
      · intro _
        refine ⟨hown, ?_⟩
        cases hs : l.status
        · exact Or.inl rfl
        · exact Or.inr rfl
        · exact absurd hs h2.2
        · exact absurd hs h2.1
      · intro _
        trivial
  · intro hown hact
    have h2 : ¬ (l.status = .cancelled ∨ l.status = .rejected) := by
      rcases hact with h | h <;> simp [h]
    simp [hown, h2]
  · intro hnown
    simp [hnown]
  · intro hown hterm
    rcases hterm with h | h <;> simp [hown, h]

/-- Witness for `cancel_self_iff_owner_active` at the owning employee
of a concrete approved leave. -/
theorem cancel_self_iff_owner_active_witness :
    ((cancel_my_leave 5 baseApproved 20).isOk = true ↔
      baseApproved.employee_id = 5 ∧
      (baseApproved.status = .pending ∨ baseApproved.status = .approved)) ∧
    (baseApproved.employee_id = 5 →
      (baseApproved.status = .pending ∨ baseApproved.status = .approved) →
      cancel_my_leave 5 baseApproved 20 =
        .ok { baseApproved with status := .cancelled, updated_at := 20 }) ∧
    (baseApproved.employee_id ≠ 5 →
      cancel_my_leave 5 baseApproved 20 =
        .error (.forbidden "You can only cancel your own leave requests")) ∧
    (baseApproved.employee_id = 5 →
      (baseApproved.status = .rejected ∨ baseApproved.status = .cancelled) →
      cancel_my_leave 5 baseApproved 20 =
        .error (.badRequest
          ("Cannot cancel a leave with status " ++ baseApproved.status.value))) :=
  cancel_self_iff_owner_active 5 baseApproved 20

/-- C7: on the self-service create path with a resolvable employee
record, a start date on or after the end date or a start date before
today fails with the corresponding ValidationError, and otherwise a
new pending row is created with both timestamps set to the server
clock. -/
theorem create_self_validates_dates (emp : Int) (req : LeaveCreateSelf)
    (now newId : Int) :
    (req.end_date ≤ req.start_date →
      create_leave_self_service (some emp) req now newId =
        .error (.badRequest "start_date must be before end_date")) ∧
    (req.start_date < req.end_date → dateOf req.start_date < dateOf now →
      create_leave_self_service (some emp) req now newId =
        .error (.badRequest "Cannot apply for leave with past dates")) ∧
    (req.start_date < req.end_date → dateOf now ≤ dateOf req.start_date →
      create_leave_self_service (some emp) req now newId =
        .ok { id := newId
              employee_id := emp
              leave_type := req.leave_type
              start_date := req.start_date
              end_date := req.end_date
              reason := req.reason
              status := .pending
              approved_by := none
              rejection_reason := none
              created_at := now
              updated_at := now }) := by
  unfold create_leave_self_service
  refine ⟨?_, ?_, ?_⟩
  · intro hle
    have h1 : req.start_date ≥ req.end_date := hle
    simp [h1]
  · intro hlt hpast
    have h1 : ¬ req.start_date ≥ req.end_date := not_le.mpr hlt
    simp [h1, hpast]
  · intro hlt hfresh
    have h1 : ¬ req.start_date ≥ req.end_date := not_le.mpr hlt
    have h2 : ¬ dateOf req.start_date < dateOf now := not_lt.mpr hfresh
    simp [h1, h2]

/-- Witness for `create_self_validates_dates` at a concrete employee
and a concrete two-day request submitted at its start instant. -/
theorem create_self_validates_dates_witness :
    ((2 * usecPerDay : Int) ≤ 0 →
      create_leave_self_service (some 5)
          { leave_type := .annual, start_date := 0, end_date := 2 * usecPerDay,
            reason := some "family event" } 0 1 =
        .error (.badRequest "start_date must be before end_date")) ∧
    ((0 : Int) < 2 * usecPerDay → dateOf 0 < dateOf 0 →
      create_leave_self_service (some 5)
          { leave_type := .annual, start_date := 0, end_date := 2 * usecPerDay,
            reason := some "family event" } 0 1 =
        .error (.badRequest "Cannot apply for leave with past dates")) ∧
    ((0 : Int) < 2 * usecPerDay → dateOf 0 ≤ dateOf 0 →
      create_leave_self_service (some 5)
          { leave_type := .annual, start_date := 0, end_date := 2 * usecPerDay,
            reason := some "family event" } 0 1 =
        .ok { id := 1
              employee_id := 5
              leave_type := .annual
              start_date := 0
              end_date := 2 * usecPerDay
              reason := some "family event"
              status := .pending
              approved_by := none
              rejection_reason := none
              created_at := 0
              updated_at := 0 }) :=
  create_self_validates_dates 5
    { leave_type := .annual, start_date := 0, end_date := 2 * usecPerDay,
      reason := some "family event" } 0 1

/-- C8: every enriched read computes `days_count` as
`(end_date - start_date).days + 1`, and under the creation
precondition `start_date < end_date` this value is at least 1. -/
theorem days_count_inclusive (l : Leave) (en an : Option String) :
    (enrichLeave l en an).days_count =
      some (Int.fdiv (l.end_date - l.start_date) usecPerDay + 1) ∧
    (l.start_date < l.end_date →
      1 ≤ Int.fdiv (l.end_date - l.start_date) usecPerDay + 1) := by
  constructor
  · rfl
  · intro hlt
    have hd : (0 : Int) ≤ l.end_date - l.start_date := by omega
    have hpos : (0 : Int) ≤ usecPerDay := by norm_num [usecPerDay]
    have := Int.fdiv_nonneg hd hpos
    omega

/-- Witness for `days_count_inclusive` at the concrete two-day sample
leave. -/
theorem days_count_inclusive_witness :
    (enrichLeave basePending (some "Alice") none).days_count =
      some (Int.fdiv (basePending.end_date - basePending.start_date) usecPerDay + 1) ∧
    (basePending.start_date < basePending.end_date →
      1 ≤ Int.fdiv (basePending.end_date - basePending.start_date) usecPerDay + 1) :=
  days_count_inclusive basePending (some "Alice") none

/-- C10: for every state of the leave table, the dashboard summary
satisfies `total = pending + approved + rejected + cancelled`, and
each component equals the count of rows of that status. -/
theorem dashboard_summary_partition (leaves : List Leave) :
    (get_leave_dashboard_summary leaves).total_leaves =
      (get_leave_dashboard_summary leaves).pending_leaves +
      (get_leave_dashboard_summary leaves).approved_leaves +
      (get_leave_dashboard_summary leaves).rejected_leaves +
      (get_leave_dashboard_summary leaves).cancelled_leaves ∧
    (get_leave_dashboard_summary leaves).pending_leaves =
      countByStatus leaves .pending ∧
    (get_leave_dashboard_summary leaves).approved_leaves =
      countByStatus leaves .approved ∧
    (get_leave_dashboard_summary leaves).rejected_leaves =
      countByStatus leaves .rejected ∧
    (get_leave_dashboard_summary leaves).cancelled_leaves =
      countByStatus leaves .cancelled := by
  refine ⟨?_, rfl, rfl, rfl, rfl⟩
  show leaves.length =
    countByStatus leaves .pending + countByStatus leaves .approved +
      countByStatus leaves .rejected + countByStatus leaves .cancelled
  induction leaves with
  | nil => rfl
  | cons hd tl ih =>
    cases hs : hd.status <;>
      simp [countByStatus, List.filter, hs, List.length] at ih ⊢ <;> omega

/-- C4: a reject attempt with a missing or empty `rejection_reason`
fails for every caller and leaves the row unchanged — on the dedicated
endpoint the Pydantic schema refuses it with a 422 before the route
body runs, and on the legacy bulk update the route refuses it with the
mandatory-field 400 whenever the transition precondition is met. -/
theorem reject_requires_reason (u : TokenData) (aid : Int) (l : Leave) (now : Int)
    (raw : Option String) (hraw : raw = none ∨ raw = some "")
    (upd : LeaveStatusUpdate) (hst : upd.status = .rejected)
    (hrr : upd.rejection_reason = none ∨ upd.rejection_reason = some "") :
    (reject_leave u aid raw l now).isOk = false ∧
    (raw = none → reject_leave u aid raw l now =
      .error (.unprocessable "rejection_reason: field required")) ∧
    (raw = some "" → reject_leave u aid raw l now =
      .error (.unprocessable "rejection_reason: length out of bounds")) ∧
    (update_leave_status upd l now).isOk = false ∧
    (l.status = .pending → update_leave_status upd l now =
      .error (.badRequest "rejection_reason is required when rejecting a leave")) := by
  have hts : truthyStr upd.rejection_reason = false := by
    rcases hrr with h | h <;> simp [truthyStr, h]
  refine ⟨?_, ?_, ?_, ?_, ?_⟩
  · rcases hraw with h | h <;> subst h <;> rfl
  · intro h
    subst h
    rfl
  · intro h
    subst h
    rfl
  · unfold update_leave_status
    rw [hst]
    split_ifs with h1 h2 h3
    · rfl
    · rfl
    · rfl
    · exfalso
      apply h3
      refine ⟨rfl, ?_⟩
      simp [hts]
  · intro hp
    unfold update_leave_status
    rw [hst]
    have h1 : ¬ (l.status ≠ LeaveStatus.pending ∧
        LeaveStatus.rejected ≠ LeaveStatus.cancelled) := by
      simp [hp]
    have h2 : ¬ (LeaveStatus.rejected = LeaveStatus.approved ∧
        ¬ truthyInt upd.approved_by = true) := by
      simp
    simp only [if_neg h1, if_neg h2]
    simp [hts]

/-- Witness for `reject_requires_reason`: HR rejecting the concrete
pending leave with a missing reason on both endpoints. -/
theorem reject_requires_reason_witness :
    (reject_leave hrUser 3 none basePending 50).isOk = false ∧
    ((none : Option String) = none → reject_leave hrUser 3 none basePending 50 =
      .error (.unprocessable "rejection_reason: field required")) ∧
    ((none : Option String) = some "" → reject_leave hrUser 3 none basePending 50 =
      .error (.unprocessable "rejection_reason: length out of bounds")) ∧
    (update_leave_status
        { status := .rejected, rejection_reason := none, approved_by := none }
        basePending 50).isOk = false ∧
    (basePending.status = .pending →
      update_leave_status
          { status := .rejected, rejection_reason := none, approved_by := none }
          basePending 50 =
        .error (.badRequest "rejection_reason is required when rejecting a leave")) :=
  reject_requires_reason hrUser 3 basePending 50 none (Or.inl rfl)
    { status := .rejected, rejection_reason := none, approved_by := none } rfl
    (Or.inl rfl)

/-- C1 fails as stated: the legacy bulk status update moves a rejected
(terminal) leave to cancelled — the transition guard only refuses when
the row is not pending AND the requested status is not cancelled, so a
request targeting cancelled succeeds on any row and even overwrites
`approved_by` and `rejection_reason`. -/
theorem terminal_legacy_cancel_counterexample :
    baseRejected.status = .rejected ∧
    update_leave_status
        { status := .cancelled, rejection_reason := none, approved_by := none }
        baseRejected 100 =
      .ok { baseRejected with
            status := .cancelled
            approved_by := none
            rejection_reason := none
            updated_at := 100 } :=
  ⟨rfl, rfl⟩

/-- C1 amended: a terminal-state leave (rejected or cancelled) is
refused with the invalid-state (Conflict) error by approve, reject
(whenever the request body passes schema validation, and in any case
the call fails), self-service cancel (for the owner; any caller
fails), and HR cancel; the legacy bulk update also refuses it — unless
the requested status is cancelled, in which case it succeeds. -/
theorem terminal_state_transitions (l : Leave)
    (hterm : l.status = .rejected ∨ l.status = .cancelled)
    (u : TokenData) (aid eid : Int) (raw rawAny : Option String) (r : String)
    (now : Int) (upd : LeaveStatusUpdate)
    (hraw : parseLeaveRejectRequest raw = .ok r) :
    approve_leave u aid l now =
      .error (.badRequest
        ("Can only approve PENDING leaves. Current status: " ++ l.status.value)) ∧
    reject_leave u aid raw l now =
      .error (.badRequest
        ("Can only reject PENDING leaves. Current status: " ++ l.status.value)) ∧
    (reject_leave u aid rawAny l now).isOk = false ∧
    cancel_my_leave l.employee_id l now =
      .error (.badRequest ("Cannot cancel a leave with status " ++ l.status.value)) ∧
    (cancel_my_leave eid l now).isOk = false ∧
    cancel_leave l now =
      .error (.badRequest ("Cannot cancel a leave with status " ++ l.status.value)) ∧
    (upd.status ≠ .cancelled →
      update_leave_status upd l now =
        .error (.badRequest
          ("Cannot change status from " ++ l.status.value ++ " to "
            ++ upd.status.value))) := by
  have hnp : l.status ≠ .pending := by
    rcases hterm with h | h <;> simp [h]
  have hcr : l.status = .cancelled ∨ l.status = .rejected := hterm.symm
  refine ⟨?_, ?_, ?_, ?_, ?_, ?_, ?_⟩
  · simp [approve_leave, hnp]
  · simp [reject_leave, hraw, Except.bind, reject_leave_checked, hnp]
  · cases hp : parseLeaveRejectRequest rawAny with
    | error e =>
      simp [reject_leave, hp, Except.bind, isOk_error]
    | ok r2 =>
      simp [reject_leave, hp, Except.bind, reject_leave_checked, hnp, isOk_error]
  · simp [cancel_my_leave, hcr]
  · by_cases hc : l.employee_id = eid
    · simp [cancel_my_leave, hc, hcr, isOk_error]
    · simp [cancel_my_leave, hc, isOk_error]
  · simp [cancel_leave, hcr]
  · intro hne
    simp [update_leave_status, hnp, hne]

/-- Witness for `terminal_state_transitions` at the concrete rejected
leave, an HR caller and a legacy update targeting approved. -/
theorem terminal_state_transitions_witness :
    approve_leave hrUser 2 baseRejected 100 =
      .error (.badRequest
        ("Can only approve PENDING leaves. Current status: "
          ++ baseRejected.status.value)) ∧
    reject_leave hrUser 2 (some "no") baseRejected 100 =
      .error (.badRequest
        ("Can only reject PENDING leaves. Current status: "
          ++ baseRejected.status.value)) ∧
    (reject_leave hrUser 2 none baseRejected 100).isOk = false ∧
    cancel_my_leave baseRejected.employee_id baseRejected 100 =
      .error (.badRequest
        ("Cannot cancel a leave with status " ++ baseRejected.status.value)) ∧
    (cancel_my_leave 9 baseRejected 100).isOk = false ∧
    cancel_leave baseRejected 100 =
      .error (.badRequest
        ("Cannot cancel a leave with status " ++ baseRejected.status.value)) ∧
    (({ status := .approved, rejection_reason := none,
        approved_by := some 2 } : LeaveStatusUpdate).status ≠ .cancelled →
      update_leave_status
          { status := .approved, rejection_reason := none, approved_by := some 2 }
          baseRejected 100 =
        .error (.badRequest
          ("Cannot change status from " ++ baseRejected.status.value ++ " to "
            ++ ({ status := .approved, rejection_reason := none,
                  approved_by := some 2 } : LeaveStatusUpdate).status.value))) :=
  terminal_state_transitions baseRejected (Or.inl rfl) hrUser 2 9 (some "no") none
    "no" 100 { status := .approved, rejection_reason := none, approved_by := some 2 }
    rfl

/-- C2 fails as stated: the legacy bulk status update performs no
self-approval check — it never resolves the acting principal to an
employee id and accepts any truthy `approved_by` from the request
body, so approving the owner's own pending leave with `approved_by`
equal to the owner succeeds. -/
theorem legacy_self_approval_counterexample :
    basePending.employee_id = 5 ∧
    update_leave_status
        { status := .approved, rejection_reason := none, approved_by := some 5 }
        basePending 100 =
      .ok { basePending with
            status := .approved, approved_by := some 5, updated_at := 100 } :=
  ⟨rfl, rfl⟩

/-- C2 amended: `can_approve_specific_leave` returns false whenever
the owner and the approver coincide, for every principal including HR,
and the dedicated approve and reject endpoints therefore deny a
self-approval attempt on a pending leave with Forbidden; the legacy
bulk status update performs no such check. -/
theorem no_self_approval_dedicated (u : TokenData) (owner : Int) (l : Leave)
    (now : Int) (raw : Option String) (r : String)
    (hown : l.employee_id = owner) (hp : l.status = .pending)
    (hraw : parseLeaveRejectRequest raw = .ok r) :
    can_approve_specific_leave u owner owner = false ∧
    approve_leave u owner l now =
      .error (.forbidden "You are not authorized to approve this leave request") ∧
    reject_leave u owner raw l now =
      .error (.forbidden "You are not authorized to reject this leave request") := by
  have hcan : can_approve_specific_leave u l.employee_id owner = false := by
    simp [can_approve_specific_leave, hown]
  refine ⟨?_, ?_, ?_⟩
  · simp [can_approve_specific_leave]
  · simp [approve_leave, hp, hcan]
  · simp [reject_leave, hraw, Except.bind, reject_leave_checked, hp, hcan]

/-- Witness for `no_self_approval_dedicated`: the HR principal whose
resolved employee id is 5 attempting to approve or reject the concrete
pending leave owned by employee 5. -/
theorem no_self_approval_dedicated_witness :
    can_approve_specific_leave hrUser 5 5 = false ∧
    approve_leave hrUser 5 basePending 60 =
      .error (.forbidden "You are not authorized to approve this leave request") ∧
    reject_leave hrUser 5 (some "late") basePending 60 =
      .error (.forbidden "You are not authorized to reject this leave request") :=
  no_self_approval_dedicated hrUser 5 basePending 60 (some "late") "late" rfl rfl rfl

/-- C3 fails as stated: cancelling an approved leave (a reachable
state) keeps `approved_by` set, so the resulting cancelled row matches
none of the three claimed shapes; and the legacy bulk update can
produce an approved row that also carries a `rejection_reason`. -/
theorem invariant_shape_counterexample :
    approve_leave mgrUser 2 basePending 10 = .ok baseApproved ∧
    cancel_my_leave 5 baseApproved 20 =
      .ok { baseApproved with status := .cancelled, updated_at := 20 } ∧
    ({ baseApproved with status := .cancelled, updated_at := 20 } : Leave).status =
      .cancelled ∧
    ({ baseApproved with status := .cancelled, updated_at := 20 } : Leave).approved_by =
      some 2 ∧
    update_leave_status
        { status := .approved, rejection_reason := some "note", approved_by := some 2 }
        basePending 30 =
      .ok { basePending with
            status := .approved
            approved_by := some 2
            rejection_reason := some "note"
            updated_at := 30 } :=
  ⟨rfl, rfl, rfl, rfl, rfl⟩

/-- C3 amended: the per-status shape invariant — pending rows carry
neither decision field, approved rows carry `approved_by` and no
`rejection_reason`, rejected rows carry both, and cancelled rows carry
no `rejection_reason` (they keep `approved_by` when cancelled after
approval) — is preserved by approve, reject and both cancel
operations; the legacy bulk update is excluded, since it can overwrite
the decision fields arbitrarily. -/
theorem invariant_preserved_dedicated (u : TokenData) (aid eid : Int) (l : Leave)
    (now : Int) (raw : Option String) (hInv : leaveInv l = true) :
    preservesInv (approve_leave u aid l now) = true ∧
    preservesInv (reject_leave u aid raw l now) = true ∧
    preservesInv (cancel_my_leave eid l now) = true ∧
    preservesInv (cancel_leave l now) = true := by
  simp only [leaveInv, decide_eq_true_eq] at hInv
  obtain ⟨hP, hA, hR, hC⟩ := hInv
  refine ⟨?_, ?_, ?_, ?_⟩
  · unfold approve_leave
    split_ifs with h1 h2
    · rfl
    · have hp : l.status = .pending := not_not.mp h1
      simp [preservesInv, leaveInv, (hP hp).2]
    · rfl
  · unfold reject_leave
    cases hp : parseLeaveRejectRequest raw with
    | error e => rfl
    | ok r2 =>
      change preservesInv (reject_leave_checked u aid r2 l now) = true
      unfold reject_leave_checked
      split_ifs with h1 h2
      · rfl
      · simp [preservesInv, leaveInv]
      · rfl
  · unfold cancel_my_leave
    split_ifs with h1 h2
    · rfl
    · rfl
    · push_neg at h2
      have hre : l.rejection_reason = none := by
        cases hs : l.status
        · exact (hP hs).2
        · exact (hA hs).2
        · exact absurd hs h2.2
        · exact absurd hs h2.1
      simp [preservesInv, leaveInv, hre]
  · unfold cancel_leave
    split_ifs with h2
    · rfl
    · push_neg at h2
      have hre : l.rejection_reason = none := by
        cases hs : l.status
        · exact (hP hs).2
        · exact (hA hs).2
        · exact absurd hs h2.2
        · exact absurd hs h2.1
      simp [preservesInv, leaveInv, hre]

/-- Witness for `invariant_preserved_dedicated` at the concrete
manager, a rejecting body, and the invariant-satisfying pending
sample leave. -/
theorem invariant_preserved_dedicated_witness :
    preservesInv (approve_leave mgrUser 2 basePending 10) = true ∧
    preservesInv (reject_leave mgrUser 2 (some "overlap") basePending 10) = true ∧
    preservesInv (cancel_my_leave 5 basePending 10) = true ∧
    preservesInv (cancel_leave basePending 10) = true :=
  invariant_preserved_dedicated mgrUser 2 5 basePending 10 (some "overlap")
    (by decide)

/-- C9 fails as stated: the empty string is not one of the valid
status values, yet supplying it does not raise a ValidationError — the
truthiness guard `if status:` treats it as an absent filter and the
records are returned. -/
theorem empty_status_filter_counterexample :
    "" ∉ validStatusValues ∧
    applyStatusFilter (some "") [basePending] = .ok [basePending] :=
  ⟨by decide, rfl⟩

/-- C9 amended: supplying a non-empty status string that is not one of
pending, approved, rejected or cancelled makes the request fail with
no records returned — but not with the intended ValidationError
naming the valid values: the `status` query parameter shadows the
`fastapi.status` module inside the four listing handlers, so building
the 400 response raises an AttributeError that escapes as an
unhandled server error with no detail; the empty string is instead
treated as no filter. -/
theorem invalid_status_filter (s : String) (leaves : List Leave)
    (hne : s ≠ "") (hinv : s ∉ validStatusValues) :
    applyStatusFilter (some s) leaves =
      .error (.unhandled
        "AttributeError: str object has no attribute HTTP_400_BAD_REQUEST") := by
  simp only [validStatusValues, List.mem_cons, List.not_mem_nil, or_false,
    not_or] at hinv
  obtain ⟨h1, h2, h3, h4⟩ := hinv
  have hp : parseLeaveStatus s = none := by
    simp [parseLeaveStatus, h1, h2, h3, h4]
  simp [applyStatusFilter, hne, hp]

/-- Witness for `invalid_status_filter` at a concrete unrecognized
status string over the sample table. -/
theorem invalid_status_filter_witness :
    applyStatusFilter (some "bogus") [basePending] =
      .error (.unhandled
        "AttributeError: str object has no attribute HTTP_400_BAD_REQUEST") :=
  invalid_status_filter "bogus" [basePending] (by decide) (by decide)

end LeaveService
